import Mathlib

/-!
Shallow embedding of `wavelet_prosody_toolkit/cwt_analysis_synthesis.py`
(the CWT analysis/synthesis command-line pipeline).

Signals are modelled as `List ℚ` (numpy 1-D float arrays), matrices as
`List (List ℚ)` (row lists).  Python exceptions are modelled by `RunError`
and fallible steps return `Except RunError _`.  The `run` function below
mirrors the script's `run()` entry point line by line, recording the files
it writes (in write order) together with trace information (the argument
passed for `apply_coi`, the mean handed to the synthesis call, whether the
analysis pass ran, ...) in a `RunResult`.

The numeric kernels `cwt_utils.cwt_analysis`, `cwt_utils.combine_scales`,
`cwt_utils.cwt_synthesis` and the collaborators `f0_processing.process`,
`f0_processing.extract_f0` belong to this repository but are not part of the
sources being verified; they are modelled from the specification (see the
doc comment of each such definition).
-/

namespace CwtAS

/-! ### String / path helpers (Python `str` and `os.path` operations) -/

/-- Python `str.lower()` as used for the extension checks (ASCII folding). -/
def strLower (s : String) : String := ⟨s.data.map Char.toLower⟩

/-- Python `str.endswith(suffix)`. -/
def strEndsWith (s suffix : String) : Bool := suffix.data.isSuffixOf s.data

/-- `os.path.basename`: the part of the path after the last `/`. -/
def strBasename (s : String) : String :=
  ⟨(s.data.reverse.takeWhile (fun c => c != '/')).reverse⟩

/-- `os.path.join` restricted to the cases arising here: an absolute second
component wins; an empty or slash-terminated first component is prepended
as-is; otherwise a `/` separator is inserted. -/
def pathJoin (a b : String) : String :=
  if b.data.head? = some '/' then b
  else if a = "" then b
  else if a.data.getLast? = some '/' then a ++ b
  else a ++ "/" ++ b

/-! ### Errors and data -/

/-- The Python exceptions the script can raise (there is no dedicated error
class in the source; these are the builtin exception kinds that reach the
generic handler in `main`).  `configError` is produced only by the
spec-modelled `combine_scales` (spec §4.3). -/
inductive RunError where
  | unboundLocal (name : String)
  | keyError (key : String)
  | typeError
  | valueError
  | configError
deriving DecidableEq, Repr

/-- A YAML configuration value (`yaml.load` result). -/
inductive ConfigVal where
  | bool (b : Bool)
  | int (n : ℤ)
  | rat (q : ℚ)
  | str (s : String)
  | table (entries : List (String × ConfigVal))

/-- A loaded configuration: the top-level mapping wrapped by the script in
`defaultdict(lambda: False, ...)` (line 104/110). -/
abbrev Cfg := List (String × ConfigVal)

/-- Top-level configuration lookup: `configuration[k]` on the `defaultdict`,
i.e. a missing key silently yields `False` instead of raising. -/
def configGet (cfg : Cfg) (k : String) : ConfigVal :=
  match cfg.lookup k with
  | some v => v
  | none => ConfigVal.bool false

/-- Subscripting a plain (non-default) configuration value, as in
`configuration["wavelet"]["num_scales"]`: a missing key raises `KeyError`,
subscripting a non-mapping (e.g. the `False` produced by the defaultdict)
raises `TypeError`. -/
def subscript (v : ConfigVal) (k : String) : Except RunError ConfigVal :=
  match v with
  | ConfigVal.table entries =>
    match entries.lookup k with
    | some x => Except.ok x
    | none => Except.error (RunError.keyError k)
  | _ => Except.error RunError.typeError

def asInt (v : ConfigVal) : Except RunError ℤ :=
  match v with
  | ConfigVal.int n => Except.ok n
  | _ => Except.error RunError.typeError

def asRat (v : ConfigVal) : Except RunError ℚ :=
  match v with
  | ConfigVal.int n => Except.ok (n : ℚ)
  | ConfigVal.rat q => Except.ok q
  | _ => Except.error RunError.typeError

def asStr (v : ConfigVal) : Except RunError String :=
  match v with
  | ConfigVal.str s => Except.ok s
  | _ => Except.error RunError.typeError

/-- A file payload written by `np.savetxt` (1-D or 2-D array). -/
inductive Artifact where
  | vec (v : List ℚ)
  | mat (m : List (List ℚ))
deriving DecidableEq, Repr

/-! ### numpy-style array operations -/

/-- `np.mean` of a 1-D array. -/
def npMean (l : List ℚ) : ℚ := l.sum / (l.length : ℚ)

/-- Elementwise sum of two equal-length rows. -/
def vadd (a b : List ℚ) : List ℚ := a.zipWith (· + ·) b

/-- Elementwise sum of a list of equal-length rows (`np.sum(..., axis=0)`
restricted to the nonempty row lists the script produces). -/
def sumRows : List (List ℚ) → List ℚ
  | [] => []
  | [r] => r
  | r :: s :: rs => vadd r (sumRows (s :: rs))

/-- numpy transpose `.T` of a rectangular 2-D array given as a row list. -/
def npT (m : List (List ℚ)) : List (List ℚ) :=
  (List.range (m.headD []).length).map (fun j => m.map (fun r => r.getD j 0))

/-- Fuel-driven worker for `chunk5` (structural recursion so that concrete
instances evaluate in the kernel). -/
def chunk5Aux : ℕ → List ℚ → List (List ℚ)
  | 0, _ => []
  | _, [] => []
  | fuel + 1, x :: l => ((x :: l).take 5) :: chunk5Aux fuel ((x :: l).drop 5)

/-- Split a flat array into consecutive rows of five values. -/
def chunk5 (l : List ℚ) : List (List ℚ) := chunk5Aux l.length l

/-- `np.loadtxt(...).reshape(-1, 5)` (line 171): reshaping a flat array of
`M` values into `M/5` rows of five raises `ValueError` unless `5 ∣ M`. -/
def reshape_neg1_5 (l : List ℚ) : Except RunError (List (List ℚ)) :=
  if l.length % 5 = 0 then Except.ok (chunk5 l) else Except.error RunError.valueError

/-! ### Spec-modelled collaborators (repository code not under `src/`) -/

/-- Modelled from the spec: `f0_processing.process` (interpolation/cleanup of
unvoiced gaps) is an excluded external collaborator (spec §1) that returns a
cleaned signal of the same length; its numeric effect is unspecified and
irrelevant to the claims, so it is modelled as the identity on an
already-clean signal (spec §8 expects a clean constant input to pass through
unchanged). -/
def process (raw : List ℚ) : List ℚ := raw

/-- Modelled from the spec: `f0_processing.extract_f0` together with
`misc.read_wav` (pitch extraction from a waveform) is an excluded external
collaborator (spec §1/§6) producing a 1-D array of real values; its numeric
content is irrelevant to the claims, so the extracted track is modelled as
the file's numeric payload itself. -/
def extract_f0 (wav : List ℚ) : List ℚ := wav

/-- Per-scale cone-of-influence mask, spec §4.2: zero out the boundary region
near each edge whose extent grows with the scale index. -/
def coiMask (i : ℕ) (row : List ℚ) : List ℚ :=
  row.enum.map (fun p => if p.1 < 2 ^ i ∨ row.length ≤ p.1 + 2 ^ i then 0 else p.2)

/-- Modelled from the spec: `cwt_utils.cwt_analysis` is code of this
repository that is not under `src/`.  Spec §4.2/§4.4 pin down: the output is
a `num_scales × N` matrix ordered like the scale schedule, an all-zero input
yields an all-zero output, the transform is linear in the signal, masking is
applied per scale when `apply_coi` is true, and the normalization is chosen
so that summing all rows recovers the input up to a bounded error.  The
kernel shapes themselves (functions of `scale_distance` and `mother_name`)
are left unspecified, so each scale's contribution is modelled as the signal
scaled by the weight `1 / num_scales` — an idealized perfectly-reconstructing
filter bank realizing exactly the spec-stated contract (with zero
reconstruction error, within any tolerance). -/
def cwt_analysis (signal : List ℚ) (num_scales : ℤ) (_scale_distance : ℚ)
    (_mother_name : String) (apply_coi : Bool) : List (List ℚ) :=
  (List.range num_scales.toNat).map (fun i =>
    let row := signal.map (fun x => x / (num_scales.toNat : ℚ))
    if apply_coi then coiMask i row else row)

/-- Modelled from the spec: `cwt_utils.combine_scales` is code of this
repository that is not under `src/`.  Spec §4.3: each output row is the
elementwise sum of the scale rows in its half-open range; an inverted range
or an upper bound exceeding the scale count is a configuration error. -/
def combine_scales (scales : List (List ℚ)) (plan : List (ℕ × ℕ)) :
    Except RunError (List (List ℚ)) :=
  if plan.all (fun p => decide (p.1 < p.2) && decide (p.2 ≤ scales.length)) then
    Except.ok (plan.map (fun p => sumRows ((scales.drop p.1).take (p.2 - p.1))))
  else Except.error RunError.configError

/-- Modelled from the spec: `cwt_utils.cwt_synthesis` is code of this
repository that is not under `src/`.  Spec §4.4: given any `k × N` row
matrix and a mean offset, return the elementwise sum of the rows with the
mean added to every sample. -/
def cwt_synthesis (scales : List (List ℚ)) (mean : ℚ) : List ℚ :=
  (sumRows scales).map (fun a => a + mean)

/-! ### The script itself -/

/-- The argparse namespace of `main` (lines 220-236).  `mode`, `mean_f0` and
`plot` carry the argparse defaults when absent; `input_file` and
`output_file` are required positionals and therefore always present. -/
structure Args where
  mode : ℤ
  mean_f0 : ℚ
  plot : Bool
  input_file : String
  output_file : String

/-- The argparse default for `--mean_f0` (line 223-224): an unsupplied mean
is replaced by `100`, no error is raised. -/
def parse_mean_f0 (supplied : Option ℚ) : ℚ := supplied.getD 100

/-- `load_f0` (lines 69-89): `.f0` files are read as the raw track, `.wav`
files go through pitch extraction; any other extension falls through the
`if/elif` and the final `return raw_f0` raises
`UnboundLocalError: raw_f0`. -/
def load_f0 (input_file : String) (content : List ℚ) : Except RunError (List ℚ) :=
  if strEndsWith (strLower input_file) ".f0" then Except.ok content
  else if strEndsWith (strLower input_file) ".wav" then Except.ok (extract_f0 content)
  else Except.error (RunError.unboundLocal "raw_f0")

/-- The fixed combination plan of line 149. -/
def defaultPlan : List (ℕ × ℕ) := [(0, 2), (2, 4), (4, 6), (6, 8), (8, 12)]

/-- The three wavelet parameters read (in this order, line 142-144) from
`configuration["wavelet"]`; the first failing subscript or conversion
raises, exactly like the keyword-argument evaluation of the Python call. -/
def getWaveletParams (cfg : Cfg) : Except RunError (ℤ × ℚ × String) :=
  match subscript (configGet cfg "wavelet") "num_scales" with
  | Except.error e => Except.error e
  | Except.ok v1 =>
    match asInt v1 with
    | Except.error e => Except.error e
    | Except.ok ns =>
      match subscript (configGet cfg "wavelet") "scale_distance" with
      | Except.error e => Except.error e
      | Except.ok v2 =>
        match asRat v2 with
        | Except.error e => Except.error e
        | Except.ok sd =>
          match subscript (configGet cfg "wavelet") "mother_wavelet" with
          | Except.error e => Except.error e
          | Except.ok v3 =>
            match asStr v3 with
            | Except.error e => Except.error e
            | Except.ok mn => Except.ok (ns, sd, mn)

/-- Outcome of the analysis half of `run` (lines 126-162). -/
structure AOut where
  files : List (String × Artifact)
  f0 : Option (List ℚ)
  scales : Option (List (List ℚ))
  analysisInput : Option (List ℚ)
  coiUsed : Option Bool
  err : Option RunError

/-- Lines 126-162 of `run`: load the f0, pre-process it, write the `.interp`
file, read the wavelet parameters, run the CWT on the mean-subtracted
signal with the hardcoded `apply_coi=False`, combine the scales with the
fixed plan (which rebinds `scales`), and write the `.cwt` matrix and one
`.cwt.<i+1>` file per combined band.  Note that the `.interp` write happens
before the configuration subscripts of line 142-144 are evaluated, and that
the matrix written to `.cwt` is the transposed *combined* scale set. -/
def analysisPhase (input_file : String) (cfg : Cfg) (input : List ℚ)
    (output_file : String) : AOut :=
  match load_f0 input_file input with
  | Except.error e => ⟨[], none, none, none, none, some e⟩
  | Except.ok raw_f0 =>
    let f0 := process raw_f0
    let files := [(output_file ++ ".interp", Artifact.vec f0)]
    match getWaveletParams cfg with
    | Except.error e => ⟨files, some f0, none, none, none, some e⟩
    | Except.ok (ns, sd, mn) =>
      let x := f0.map (fun a => a - npMean f0)
      let scales0 := cwt_analysis x ns sd mn false
      match combine_scales scales0 defaultPlan with
      | Except.error e => ⟨files, some f0, none, some x, some false, some e⟩
      | Except.ok scales =>
        ⟨files ++ (output_file ++ ".cwt", Artifact.mat (npT scales)) ::
            scales.enum.map (fun p =>
              (output_file ++ ".cwt." ++ toString (p.1 + 1), Artifact.vec p.2)),
         some f0, some scales, some x, some false, none⟩

/-- The observable outcome of one invocation of `run`: the persisted files in
write order, the in-memory reconstruction (if one was computed), the mean
handed to `cwt_synthesis`, the signal handed to `cwt_analysis`, the
`apply_coi` argument of the analysis call, whether the analysis pass ran,
the name of the persisted reconstruction file (if any), and the uncaught
exception (if any). -/
structure RunResult where
  files : List (String × Artifact)
  rec? : Option (List ℚ)
  synthMean : Option ℚ
  analysisInput : Option (List ℚ)
  coiUsed : Option Bool
  analysisRan : Bool
  recFile : Option String
  err : Option RunError
deriving DecidableEq, Repr

/-- Lines 170-171 of `run`: the scale matrix used by synthesis — the one
still in memory after the analysis pass, or else the input file reloaded
flat and reshaped to five columns, then transposed. -/
def synthScales (scales0 : Option (List (List ℚ))) (input : List ℚ) :
    Except RunError (List (List ℚ)) :=
  match scales0 with
  | some s => Except.ok s
  | none => Except.map npT (reshape_neg1_5 input)

/-- Lines 172-175 of `run`: the mean restored at synthesis — the
command-line `mean_f0` in mode 1, `np.mean(f0)` in every other mode; in the
latter case `f0` exists only when the analysis pass ran, otherwise the
lookup raises an unbound-variable error. -/
def synthMeanE (mode : ℤ) (mean_f0 : ℚ) (f0 : Option (List ℚ)) :
    Except RunError ℚ :=
  if mode = 1 then Except.ok mean_f0
  else
    match f0 with
    | some f0v => Except.ok (npMean f0v)
    | none => Except.error (RunError.unboundLocal "f0")

/-- Lines 169-203 of `run`: the synthesis/plot half.  The reconstruction is
persisted only under `args.mode >= 1` (lines 179-189; for mode 1 the output
path is `args.output_file` itself — the `output_file is None` check of
line 181 is dead because the positional is always present — otherwise
`_rec.f0` is appended to the joined path).  The plot block (lines 191-203)
belongs to the excluded visualization collaborator and writes nothing. -/
def synthesisPhase (mode : ℤ) (mean_f0 : ℚ) (plot : Bool) (out_arg : String)
    (input : List ℚ) (output_file : String)
    (f0 : Option (List ℚ)) (scales0 : Option (List (List ℚ)))
    (analysisInput : Option (List ℚ)) (coiUsed : Option Bool)
    (analysisRan : Bool) (files : List (String × Artifact)) : RunResult :=
  if 1 ≤ mode ∨ plot = true then
    match synthScales scales0 input with
    | Except.error e => ⟨files, none, none, analysisInput, coiUsed, analysisRan, none, some e⟩
    | Except.ok scales =>
      match synthMeanE mode mean_f0 f0 with
      | Except.error e => ⟨files, none, none, analysisInput, coiUsed, analysisRan, none, some e⟩
      | Except.ok mean =>
        let r := cwt_synthesis scales mean
        if 1 ≤ mode then
          let recName := if mode = 1 then out_arg else output_file ++ "_rec.f0"
          ⟨files ++ [(recName, Artifact.vec r)], some r, some mean,
           analysisInput, coiUsed, analysisRan, some recName, none⟩
        else
          ⟨files, some r, some mean, analysisInput, coiUsed, analysisRan, none, none⟩
  else ⟨files, none, none, analysisInput, coiUsed, analysisRan, none, none⟩

/-- The `run` entry function (lines 95-203).  `cfg` is the mapping produced
by the configuration-loading prologue (lines 102-114, default or user file —
both wrap `yaml.load` output in `defaultdict(lambda: False, ...)`); `input`
is the numeric payload of `args.input_file`. -/
def run (args : Args) (cfg : Cfg) (input : List ℚ) : RunResult :=
  let output_dir := args.output_file
  let output_file := pathJoin output_dir (strBasename args.input_file)
  if args.mode % 2 = 0 then
    let a := analysisPhase args.input_file cfg input output_file
    match a.err with
    | some e => ⟨a.files, none, none, a.analysisInput, a.coiUsed, true, none, some e⟩
    | none =>
      synthesisPhase args.mode args.mean_f0 args.plot args.output_file input
        output_file a.f0 a.scales a.analysisInput a.coiUsed true a.files
  else
    synthesisPhase args.mode args.mean_f0 args.plot args.output_file input
      output_file none none none none false []

/-- Exit code of `main` (lines 258/267): 0 on success, -1 when `run` let an
exception escape to the generic `except Exception` handler. -/
def main_exit (r : RunResult) : ℤ := if r.err.isSome then -1 else 0

/-- Convenience constructor for a configuration holding exactly the wavelet
section the script reads. -/
def mkWaveletCfg (ns : ℤ) (sd : ℚ) (mn : String) : Cfg :=
  [("wavelet", ConfigVal.table
      [("num_scales", ConfigVal.int ns),
       ("scale_distance", ConfigVal.rat sd),
       ("mother_wavelet", ConfigVal.str mn)])]

/-! ### General lemmas about the array operations -/

theorem vadd_map_map {α : Type} (l : List α) (f g : α → ℚ) :
    vadd (l.map f) (l.map g) = l.map (fun a => f a + g a) := by
  induction l with
  | nil => rfl
  | cons a t ih => simp [vadd, ih]

/-- The combined band set that the 12-scale idealized analysis produces
under the default plan: band sizes 2, 2, 2, 2, 4 over identical rows. -/
def bands12 (x : List ℚ) : List (List ℚ) :=
  [vadd r r, vadd r r, vadd r r, vadd r r, vadd r (vadd r (vadd r r))]
where r : List ℚ := x.map (fun a => a / 12)

theorem combine12 (x : List ℚ) (sd : ℚ) (mn : String) :
    combine_scales (cwt_analysis x 12 sd mn false) defaultPlan
      = Except.ok (bands12 x) := rfl

theorem cwt_synthesis_bands12 (x : List ℚ) (m : ℚ) :
    cwt_synthesis (bands12 x) m = x.map (fun a => a + m) := by
  simp only [bands12, bands12.r, cwt_synthesis, sumRows, vadd_map_map, List.map_map]
  rw [List.map_eq_map_iff]
  intro a _
  simp only [Function.comp]
  ring

theorem recon12 (v : List ℚ) :
    cwt_synthesis (bands12 (v.map (fun a => a - npMean v))) (npMean v) = v := by
  rw [cwt_synthesis_bands12, List.map_map]
  conv_rhs => rw [← List.map_id v]
  rw [List.map_eq_map_iff]
  intro a _
  simp only [Function.comp, id]
  ring

theorem getWaveletParams_mk (ns : ℤ) (sd : ℚ) (mn : String) :
    getWaveletParams (mkWaveletCfg ns sd mn) = Except.ok (ns, sd, mn) := rfl

/-- C1: in Both mode (`--mode 2`) the pipeline subtracts `mean(S)` from the
pre-processed signal before the forward wavelet decomposition, passes that
same computed `mean(S)` to the synthesis call, and the synthesized output
reproduces the pre-processed signal exactly (hence within any numeric
tolerance). -/
theorem C1_both_mode_reconstructs (mf : ℚ) (plot : Bool) (name out : String)
    (sd : ℚ) (mn : String) (v : List ℚ)
    (hname : strEndsWith (strLower name) ".f0" = true) (_hv : 0 < v.length) :
    (run ⟨2, mf, plot, name, out⟩ (mkWaveletCfg 12 sd mn) v).err = none ∧
    (run ⟨2, mf, plot, name, out⟩ (mkWaveletCfg 12 sd mn) v).analysisInput
      = some ((process v).map (fun a => a - npMean (process v))) ∧
    (run ⟨2, mf, plot, name, out⟩ (mkWaveletCfg 12 sd mn) v).synthMean
      = some (npMean (process v)) ∧
    (run ⟨2, mf, plot, name, out⟩ (mkWaveletCfg 12 sd mn) v).rec? = some (process v) := by
  have h2 : ((2 : ℤ) % 2 = 0) := by decide
  simp only [run, h2, if_true, analysisPhase, load_f0, hname, if_pos,
    getWaveletParams_mk, combine12, synthesisPhase, synthScales, synthMeanE, process]
  have hg : (1 : ℤ) ≤ 2 ∨ plot = true := Or.inl (by norm_num)
  rw [if_pos hg, if_neg (by norm_num : ¬ (2 : ℤ) = 1)]
  simp only [recon12]
  norm_num

theorem C1_both_mode_reconstructs_witness :
    (run ⟨2, 100, false, "a.f0", "o"⟩ (mkWaveletCfg 12 1 "mexh") [3, 5]).err = none ∧
    (run ⟨2, 100, false, "a.f0", "o"⟩ (mkWaveletCfg 12 1 "mexh") [3, 5]).rec?
      = some (process [3, 5]) :=
  ⟨(C1_both_mode_reconstructs 100 false "a.f0" "o" 1 "mexh" [3, 5]
      (by decide) (by decide)).1,
   (C1_both_mode_reconstructs 100 false "a.f0" "o" 1 "mexh" [3, 5]
      (by decide) (by decide)).2.2.2⟩

/-! ### Reshape round-trip lemmas -/

theorem chunk5Aux_eq_chunk5 : ∀ (f : ℕ) (l : List ℚ), l.length ≤ f → chunk5Aux f l = chunk5 l := by
  intro f
  induction f using Nat.strong_induction_on with
  | _ f ih =>
    intro l hl
    cases l with
    | nil => cases f <;> rfl
    | cons x t =>
      cases f with
      | zero => simp at hl
      | succ g =>
        simp only [List.length_cons] at hl
        have h1 : chunk5Aux g ((x :: t).drop 5) = chunk5 ((x :: t).drop 5) :=
          ih g (Nat.lt_succ_self g) _
            (by simp only [List.length_drop, List.length_cons]; omega)
        have h2 : chunk5Aux t.length ((x :: t).drop 5) = chunk5 ((x :: t).drop 5) :=
          ih t.length (by omega) _
            (by simp only [List.length_drop, List.length_cons]; omega)
        show ((x :: t).take 5) :: chunk5Aux g ((x :: t).drop 5) = chunk5 (x :: t)
        rw [h1]
        show _ = ((x :: t).take 5) :: chunk5Aux t.length ((x :: t).drop 5)
        rw [h2]

theorem chunk5_append (r t : List ℚ) (hr : r.length = 5) :
    chunk5 (r ++ t) = r :: chunk5 t := by
  rcases r with _ | ⟨a, _ | ⟨b, _ | ⟨c, _ | ⟨d, _ | ⟨e, _ | ⟨f, r⟩⟩⟩⟩⟩⟩ <;>
    try (exfalso; simp only [List.length_cons, List.length_nil] at hr; omega)
  show [a, b, c, d, e] :: chunk5Aux (t.length + 4) t = [a, b, c, d, e] :: chunk5 t
  rw [chunk5Aux_eq_chunk5 (t.length + 4) t (by omega)]

theorem chunk5_flatten (m : List (List ℚ)) (hm : ∀ r ∈ m, r.length = 5) :
    chunk5 m.flatten = m := by
  induction m with
  | nil => rfl
  | cons r rs ih =>
    rw [List.flatten_cons, chunk5_append r _ (hm r (by simp))]
    rw [ih (fun x hx => hm x (by simp [hx]))]

theorem flatten_length_five (m : List (List ℚ)) (hm : ∀ r ∈ m, r.length = 5) :
    m.flatten.length = 5 * m.length := by
  induction m with
  | nil => rfl
  | cons r rs ih =>
    have h1 : r.length = 5 := hm r (by simp)
    have h2 : rs.flatten.length = 5 * rs.length := ih (fun x hx => hm x (by simp [hx]))
    simp only [List.flatten_cons, List.length_append, List.length_cons, h1, h2]
    ring

theorem sumRows_npT (m : List (List ℚ)) (hm : ∀ r ∈ m, r.length = 5) :
    sumRows (npT m) = m.map List.sum := by
  cases m with
  | nil => rfl
  | cons r rs =>
    have hr : r.length = 5 := hm r (by simp)
    have hhead : ((r :: rs).headD []).length = 5 := hr
    simp only [npT]
    rw [hhead, show List.range 5 = [0, 1, 2, 3, 4] from rfl]
    rw [show List.map (fun j => List.map (fun rr => rr.getD j 0) (r :: rs)) [0, 1, 2, 3, 4]
        = [List.map (fun rr => rr.getD 0 0) (r :: rs),
           List.map (fun rr => rr.getD 1 0) (r :: rs),
           List.map (fun rr => rr.getD 2 0) (r :: rs),
           List.map (fun rr => rr.getD 3 0) (r :: rs),
           List.map (fun rr => rr.getD 4 0) (r :: rs)] from rfl]
    simp only [sumRows, vadd_map_map]
    rw [List.map_eq_map_iff]
    intro row hrow
    have h5 : row.length = 5 := hm row hrow
    rcases row with _ | ⟨a, _ | ⟨b, _ | ⟨c, _ | ⟨d, _ | ⟨e, _ | ⟨f, row⟩⟩⟩⟩⟩⟩ <;>
      try (exfalso; simp only [List.length_cons, List.length_nil] at h5; omega)
    simp [List.getD]
    try ring

/-! ### Claim C3 -/

/-- C3 counterexample: synthesis-only mode does not accept an arbitrary
`N × k` persisted matrix.  The flat payload of a 3-rows × 2-columns matrix
(six values) is rejected with a `ValueError` from `reshape(-1, 5)`
(line 171) and nothing is reconstructed, refuting the claim for `k = 2`,
`N = 3`. -/
theorem C3_counterexample :
    (run ⟨1, 100, false, "in.txt", "out.f0"⟩ [] [1, 2, 3, 4, 5, 6]).err
      = some RunError.valueError ∧
    (run ⟨1, 100, false, "in.txt", "out.f0"⟩ [] [1, 2, 3, 4, 5, 6]).recFile = none := by
  with_unfolding_all decide

/-- C3 (amended): synthesis-only mode reshapes the persisted flat data into
five columns unconditionally (`reshape(-1, 5)`, line 171), so `k = 5` is
assumed.  For a matrix persisted with exactly five columns the mode accepts
it (transposing it to five rows) and returns, per sample, the sum of that
row's five values plus the MeanOffset; payloads whose size is not a
multiple of five are rejected with a `ValueError`. -/
theorem C3_synthesis_five_columns (m : List (List ℚ)) (hm : ∀ r ∈ m, r.length = 5)
    (mf : ℚ) (plot : Bool) (name out : String) (cfg : Cfg) :
    (run ⟨1, mf, plot, name, out⟩ cfg m.flatten).err = none ∧
    (run ⟨1, mf, plot, name, out⟩ cfg m.flatten).rec?
      = some (m.map (fun row => row.sum + mf)) ∧
    (run ⟨1, mf, plot, name, out⟩ cfg m.flatten).recFile = some out := by
  have hmod : m.flatten.length % 5 = 0 := by
    rw [flatten_length_five m hm]; omega
  have hsynth : cwt_synthesis (npT m) mf = m.map (fun row => row.sum + mf) := by
    simp only [cwt_synthesis, sumRows_npT m hm, List.map_map]
    rw [List.map_eq_map_iff]
    intro row _
    simp [Function.comp]
  have hmod' : (List.map List.length m).sum % 5 = 0 := by
    simpa using hmod
  simp [run, synthesisPhase, synthScales, reshape_neg1_5, hmod, hmod',
    chunk5_flatten m hm, synthMeanE, hsynth, Except.map]

theorem C3_synthesis_five_columns_witness :
    (run ⟨1, 7, false, "in.txt", "o.f0"⟩ []
        ([[1, 2, 3, 4, 5], [10, 20, 30, 40, 50]] : List (List ℚ)).flatten).rec?
      = some (([[1, 2, 3, 4, 5], [10, 20, 30, 40, 50]] : List (List ℚ)).map
          (fun row => row.sum + 7)) ∧
    (run ⟨1, 7, false, "in.txt", "o.f0"⟩ []
        ([[1, 2, 3, 4, 5], [10, 20, 30, 40, 50]] : List (List ℚ)).flatten).recFile
      = some "o.f0" :=
  ⟨(C3_synthesis_five_columns [[1, 2, 3, 4, 5], [10, 20, 30, 40, 50]]
      (by decide) 7 false "in.txt" "o.f0" []).2.1,
   (C3_synthesis_five_columns [[1, 2, 3, 4, 5], [10, 20, 30, 40, 50]]
      (by decide) 7 false "in.txt" "o.f0" []).2.2⟩

/-! ### Claim C2 -/

/-- C2 counterexample: a synthesis-only invocation (`--mode 1`) with no
caller-supplied MeanOffset does not fail: argparse substitutes the default
`100`, synthesis runs with that mean, and the reconstruction is persisted
([1,2,3,4,5] reshapes to one sample whose five scale values sum to 15, so
the output is [115]). -/
theorem C2_counterexample :
    (run ⟨1, parse_mean_f0 none, false, "in.txt", "out.f0"⟩ [] [1, 2, 3, 4, 5]).err = none ∧
    (run ⟨1, parse_mean_f0 none, false, "in.txt", "out.f0"⟩ [] [1, 2, 3, 4, 5]).synthMean
      = some 100 ∧
    (run ⟨1, parse_mean_f0 none, false, "in.txt", "out.f0"⟩ [] [1, 2, 3, 4, 5]).rec?
      = some [115] ∧
    (run ⟨1, parse_mean_f0 none, false, "in.txt", "out.f0"⟩ [] [1, 2, 3, 4, 5]).recFile
      = some "out.f0" := by
  with_unfolding_all decide

/-- C2 (amended): in a synthesis-only invocation with no caller-supplied
MeanOffset, argparse silently substitutes the default `100` (line 223-224)
and synthesis proceeds with that value; no error of any kind is raised
(for any payload whose size parses, i.e. is a multiple of five). -/
theorem C2_default_mean_is_100 (v : List ℚ) (hmod : v.length % 5 = 0)
    (plot : Bool) (name out : String) (cfg : Cfg) :
    parse_mean_f0 none = 100 ∧
    (run ⟨1, parse_mean_f0 none, plot, name, out⟩ cfg v).err = none ∧
    (run ⟨1, parse_mean_f0 none, plot, name, out⟩ cfg v).synthMean = some 100 ∧
    (run ⟨1, parse_mean_f0 none, plot, name, out⟩ cfg v).recFile = some out := by
  refine ⟨rfl, ?_⟩
  simp [run, synthesisPhase, synthScales, reshape_neg1_5, hmod, synthMeanE,
    parse_mean_f0, Except.map]

theorem C2_default_mean_is_100_witness :
    (run ⟨1, parse_mean_f0 none, false, "x.cwt", "y.f0"⟩ [] [0, 0, 0, 0, 0]).synthMean
      = some 100 ∧
    (run ⟨1, parse_mean_f0 none, false, "x.cwt", "y.f0"⟩ [] [0, 0, 0, 0, 0]).recFile
      = some "y.f0" :=
  ⟨(C2_default_mean_is_100 [0, 0, 0, 0, 0] (by decide) false "x.cwt" "y.f0" []).2.2.1,
   (C2_default_mean_is_100 [0, 0, 0, 0, 0] (by decide) false "x.cwt" "y.f0" []).2.2.2⟩

/-! ### Claim C4 -/

theorem lookup_wavelet_table (w : List (String × ConfigVal)) :
    configGet [("wavelet", ConfigVal.table w)] "wavelet" = ConfigVal.table w := rfl

theorem getWaveletParams_missing_ns (w : List (String × ConfigVal))
    (hw : w.lookup "num_scales" = none) :
    getWaveletParams [("wavelet", ConfigVal.table w)]
      = Except.error (RunError.keyError "num_scales") := by
  simp [getWaveletParams, lookup_wavelet_table, subscript, hw]

/-- C4 counterexample: a run that fails at the wavelet decomposition (the
configuration's `wavelet` section lacks `num_scales`, so the subscript of
line 142 raises `KeyError` before `cwt_analysis` is called) still leaves the
`.interp` artifact written at line 138 on disk — the failed run persisted an
artifact, refuting all-or-nothing persistence. -/
theorem C4_counterexample :
    (run ⟨0, 100, false, "a.f0", "o"⟩ [("wavelet", ConfigVal.table [])] [1, 2]).err
      = some (RunError.keyError "num_scales") ∧
    (run ⟨0, 100, false, "a.f0", "o"⟩ [("wavelet", ConfigVal.table [])] [1, 2]).files
      = [("o/a.f0.interp", Artifact.vec [1, 2])] := by
  with_unfolding_all decide

/-- C4 (amended): a run that fails at the wavelet decomposition stage (after
the input was loaded) persists exactly the artifacts written before the
failure point — in particular the interpolated-signal file written at
line 138 — rather than none; all-or-nothing persistence does not hold. -/
theorem C4_interp_persisted_on_failure (name out : String) (v : List ℚ)
    (mf : ℚ) (plot : Bool) (w : List (String × ConfigVal))
    (hname : strEndsWith (strLower name) ".f0" = true)
    (hw : w.lookup "num_scales" = none) :
    (run ⟨0, mf, plot, name, out⟩ [("wavelet", ConfigVal.table w)] v).err
      = some (RunError.keyError "num_scales") ∧
    (run ⟨0, mf, plot, name, out⟩ [("wavelet", ConfigVal.table w)] v).files
      = [(pathJoin out (strBasename name) ++ ".interp", Artifact.vec (process v))] := by
  simp [run, analysisPhase, load_f0, hname, getWaveletParams_missing_ns w hw, process]

theorem C4_interp_persisted_on_failure_witness :
    (run ⟨0, 100, false, "b.f0", "d"⟩
        [("wavelet", ConfigVal.table [("scale_distance", ConfigVal.rat 1)])] [3]).err
      = some (RunError.keyError "num_scales") ∧
    (run ⟨0, 100, false, "b.f0", "d"⟩
        [("wavelet", ConfigVal.table [("scale_distance", ConfigVal.rat 1)])] [3]).files
      = [(pathJoin "d" (strBasename "b.f0") ++ ".interp", Artifact.vec (process [3]))] :=
  C4_interp_persisted_on_failure "b.f0" "d" [3] 100 false
    [("scale_distance", ConfigVal.rat 1)] (by decide) rfl

/-! ### Claim C5 -/

/-- The combined band set the analysis pass persists: the default plan
applied to the scale set of the mean-subtracted signal. -/
def bandsOf (x : List ℚ) (ns : ℤ) (sd : ℚ) (mn : String) : List (List ℚ) :=
  defaultPlan.map (fun p =>
    sumRows (((cwt_analysis x ns sd mn false).drop p.1).take (p.2 - p.1)))

theorem combine_scales_defaultPlan_ok (scales : List (List ℚ))
    (h : 12 ≤ scales.length) :
    combine_scales scales defaultPlan
      = Except.ok (defaultPlan.map (fun p => sumRows ((scales.drop p.1).take (p.2 - p.1)))) := by
  unfold combine_scales
  rw [if_pos]
  simp only [defaultPlan, List.all_cons, List.all_nil, Bool.and_eq_true,
    decide_eq_true_eq]
  refine ⟨⟨by omega, by omega⟩, ⟨by omega, by omega⟩, ⟨by omega, by omega⟩,
    ⟨by omega, by omega⟩, ⟨by omega, by omega⟩, trivial⟩

/-- C5 counterexample: a successful analysis run with `num_scales = 12`
persists exactly seven files — the pre-processed signal, the transposed
combined-band matrix (five columns per row), and the five individual
bands — and no artifact holding the full scale set transposed to
N rows × 12 columns exists, refuting the claimed four artifact kinds. -/
theorem C5_counterexample :
    (run ⟨0, 100, false, "a.f0", "o"⟩ (mkWaveletCfg 12 1 "mexican_hat") [1, 2]).err
      = none ∧
    (run ⟨0, 100, false, "a.f0", "o"⟩ (mkWaveletCfg 12 1 "mexican_hat") [1, 2]).files
      = [("o/a.f0.interp", Artifact.vec [1, 2]),
         ("o/a.f0.cwt", Artifact.mat [[-1/12, -1/12, -1/12, -1/12, -1/6],
                                      [1/12, 1/12, 1/12, 1/12, 1/6]]),
         ("o/a.f0.cwt.1", Artifact.vec [-1/12, 1/12]),
         ("o/a.f0.cwt.2", Artifact.vec [-1/12, 1/12]),
         ("o/a.f0.cwt.3", Artifact.vec [-1/12, 1/12]),
         ("o/a.f0.cwt.4", Artifact.vec [-1/12, 1/12]),
         ("o/a.f0.cwt.5", Artifact.vec [-1/6, 1/6])] := by
  with_unfolding_all decide

/-- C5 (amended): a successful analysis-only run persists three kinds of
artifact: the pre-processed signal, the transposed combined-band matrix
(`num_bands = 5` columns), and each combined band individually.  The full
scale set is never persisted: the `scales` variable is rebound to the
combined set (line 148) before the `.cwt` matrix write of line 154, so the
matrix artifact is `N × num_bands`, not `N × num_scales`. -/
theorem C5_three_artifact_kinds (ns : ℤ) (sd : ℚ) (mn : String)
    (mf : ℚ) (name out : String) (v : List ℚ)
    (hns : 12 ≤ ns) (hname : strEndsWith (strLower name) ".f0" = true) :
    combine_scales
        (cwt_analysis ((process v).map (fun a => a - npMean (process v))) ns sd mn false)
        defaultPlan
      = Except.ok (bandsOf ((process v).map (fun a => a - npMean (process v))) ns sd mn) ∧
    (bandsOf ((process v).map (fun a => a - npMean (process v))) ns sd mn).length = 5 ∧
    (run ⟨0, mf, false, name, out⟩ (mkWaveletCfg ns sd mn) v).err = none ∧
    (run ⟨0, mf, false, name, out⟩ (mkWaveletCfg ns sd mn) v).files
      = (pathJoin out (strBasename name) ++ ".interp", Artifact.vec (process v)) ::
        (pathJoin out (strBasename name) ++ ".cwt",
          Artifact.mat (npT (bandsOf ((process v).map (fun a => a - npMean (process v))) ns sd mn))) ::
        (bandsOf ((process v).map (fun a => a - npMean (process v))) ns sd mn).enum.map
          (fun p => (pathJoin out (strBasename name) ++ ".cwt." ++ toString (p.1 + 1),
            Artifact.vec p.2)) := by
  have hlen : (cwt_analysis (v.map (fun a => a - npMean v)) ns sd mn false).length
      = ns.toNat := by
    simp [cwt_analysis]
  have hcomb := combine_scales_defaultPlan_ok
    (cwt_analysis (v.map (fun a => a - npMean v)) ns sd mn false)
    (by omega)
  refine ⟨hcomb, by simp [bandsOf, defaultPlan], ?_, ?_⟩ <;>
    simp [run, analysisPhase, load_f0, hname, getWaveletParams_mk, hcomb, bandsOf,
      synthesisPhase, process]

theorem C5_three_artifact_kinds_witness :
    (run ⟨0, 100, false, "a.f0", "dir"⟩ (mkWaveletCfg 12 1 "mexh") [1, 2]).err = none ∧
    (run ⟨0, 100, false, "a.f0", "dir"⟩ (mkWaveletCfg 12 1 "mexh") [1, 2]).files
      = (pathJoin "dir" (strBasename "a.f0") ++ ".interp", Artifact.vec (process [1, 2])) ::
        (pathJoin "dir" (strBasename "a.f0") ++ ".cwt",
          Artifact.mat (npT (bandsOf ((process [1, 2]).map (fun a => a - npMean (process [1, 2]))) 12 1 "mexh"))) ::
        (bandsOf ((process [1, 2]).map (fun a => a - npMean (process [1, 2]))) 12 1 "mexh").enum.map
          (fun p => (pathJoin "dir" (strBasename "a.f0") ++ ".cwt." ++ toString (p.1 + 1),
            Artifact.vec p.2)) :=
  ⟨(C5_three_artifact_kinds 12 1 "mexh" 100 "a.f0" "dir" [1, 2] (by decide) (by decide)).2.2.1,
   (C5_three_artifact_kinds 12 1 "mexh" 100 "a.f0" "dir" [1, 2] (by decide) (by decide)).2.2.2⟩

/-! ### Claim C6 -/

theorem analysisPhase_coiUsed (i : String) (cfg : Cfg) (v : List ℚ) (of : String) :
    (analysisPhase i cfg v of).coiUsed = none ∨
    (analysisPhase i cfg v of).coiUsed = some false := by
  unfold analysisPhase
  rcases hl : load_f0 i v with e | raw
  · simp
  · rcases hg : getWaveletParams cfg with e | ⟨ns, sd, mn⟩
    · simp [hg]
    · rcases hc : combine_scales (cwt_analysis ((process raw).map
          (fun a => a - npMean (process raw))) ns sd mn false) defaultPlan with e | bands <;>
        simp [hg, hc]

theorem synthesisPhase_coiUsed (mode : ℤ) (mf : ℚ) (plot : Bool) (out : String)
    (input : List ℚ) (of : String) (f0 : Option (List ℚ))
    (sc : Option (List (List ℚ))) (ai : Option (List ℚ)) (cu : Option Bool)
    (ar : Bool) (files : List (String × Artifact)) :
    (synthesisPhase mode mf plot out input of f0 sc ai cu ar files).coiUsed = cu := by
  unfold synthesisPhase
  by_cases h : 1 ≤ mode ∨ plot = true
  · rw [if_pos h]
    rcases hs : synthScales sc input with e | s
    · simp
    · rcases hm : synthMeanE mode mf f0 with e | mn
      · simp
      · by_cases h1 : 1 ≤ mode <;> simp [h1]
  · rw [if_neg h]

/-- C6 counterexample: a configuration that sets `apply_coi` to true does
not change the analysis call — line 145 passes the literal `False`, so the
forward transform still receives `apply_coi = false`; the caller's override
is not passed through. -/
theorem C6_counterexample :
    (run ⟨0, 100, false, "a.f0", "o"⟩
        (("apply_coi", ConfigVal.bool true) :: mkWaveletCfg 12 1 "mexh") [1, 2]).err
      = none ∧
    (run ⟨0, 100, false, "a.f0", "o"⟩
        (("apply_coi", ConfigVal.bool true) :: mkWaveletCfg 12 1 "mexh") [1, 2]).coiUsed
      = some false := by
  with_unfolding_all decide

/-- C6 (amended): the pipeline's analysis call does default to cone-of-
influence masking disabled, but `apply_coi` is not an exposed configuration
field: the call site hardcodes the literal `False` (line 145), so no run —
whatever the configuration — ever hands `apply_coi = true` to the forward
transform. -/
theorem C6_coi_hardcoded_false (args : Args) (cfg : Cfg) (input : List ℚ) :
    (run args cfg input).coiUsed = none ∨ (run args cfg input).coiUsed = some false := by
  unfold run
  by_cases he : args.mode % 2 = 0
  · rw [if_pos he]
    rcases ha : (analysisPhase args.input_file cfg input
        (pathJoin args.output_file (strBasename args.input_file))).err with _ | e
    · simp only [ha, synthesisPhase_coiUsed]
      exact analysisPhase_coiUsed _ _ _ _
    · simp only [ha]
      exact analysisPhase_coiUsed _ _ _ _
  · rw [if_neg he]
    rw [synthesisPhase_coiUsed]
    exact Or.inl rfl

/-! ### Claim C7 -/

/-- C7: an analysis-mode input whose name ends in neither `.f0` nor `.wav`
makes `load_f0` fall through its `if/elif` and raise
`UnboundLocalError: raw_f0` at the `return` of line 89.  The run fails
before any transform executes (no `.interp` file is written, the analysis
call is never reached — `coiUsed` is still `none`) and the error is the
generic unbound-variable exception surfacing through the catch-all handler
of `main` (exit code -1), not a dedicated input error with a clear cause. -/
theorem C7_unrecognized_extension :
    load_f0 "contour.txt" [1, 2] = Except.error (RunError.unboundLocal "raw_f0") ∧
    (run ⟨0, 100, false, "contour.txt", "o"⟩ (mkWaveletCfg 12 1 "mexh") [1, 2]).err
      = some (RunError.unboundLocal "raw_f0") ∧
    (run ⟨0, 100, false, "contour.txt", "o"⟩ (mkWaveletCfg 12 1 "mexh") [1, 2]).files
      = [] ∧
    (run ⟨0, 100, false, "contour.txt", "o"⟩ (mkWaveletCfg 12 1 "mexh") [1, 2]).coiUsed
      = none ∧
    main_exit (run ⟨0, 100, false, "contour.txt", "o"⟩ (mkWaveletCfg 12 1 "mexh") [1, 2])
      = -1 :=
  ⟨rfl, by with_unfolding_all decide⟩

/-! ### Claim C8 -/

theorem getWaveletParams_empty :
    getWaveletParams [] = Except.error RunError.typeError := rfl

/-- C8 counterexample: with an empty (or misspelled) configuration the
missing `wavelet` key is silently mapped to `False` by the `defaultdict`
(no error at lookup time); the run then fails only when line 142 subscripts
that `False`, raising a `TypeError` — after the `.interp` artifact was
already written.  No ConfigurationError is raised anywhere. -/
theorem C8_counterexample :
    configGet [] "wavelet" = ConfigVal.bool false ∧
    (run ⟨0, 100, false, "a.f0", "o"⟩ [] [1, 2]).err = some RunError.typeError ∧
    (run ⟨0, 100, false, "a.f0", "o"⟩ [] [1, 2]).files
      = [("o/a.f0.interp", Artifact.vec [1, 2])] :=
  ⟨rfl, by with_unfolding_all decide⟩

/-- C8 (amended): a missing or misspelled configuration key does not fail
loudly: the `defaultdict` silently substitutes `False` (line 104/110), and a
run whose configuration lacks the `wavelet` section only fails later, with a
`TypeError` at the subscript of line 142 — after persisting the `.interp`
artifact — never with a dedicated ConfigurationError. -/
theorem C8_missing_key_silent (cfg : Cfg) (k : String) (hk : cfg.lookup k = none)
    (name out : String) (v : List ℚ) (mf : ℚ) (plot : Bool)
    (hname : strEndsWith (strLower name) ".f0" = true) :
    configGet cfg k = ConfigVal.bool false ∧
    (run ⟨0, mf, plot, name, out⟩ [] v).err = some RunError.typeError ∧
    (run ⟨0, mf, plot, name, out⟩ [] v).files
      = [(pathJoin out (strBasename name) ++ ".interp", Artifact.vec (process v))] := by
  refine ⟨by simp [configGet, hk], ?_, ?_⟩ <;>
    simp [run, analysisPhase, load_f0, hname, getWaveletParams_empty, process]

theorem C8_missing_key_silent_witness :
    configGet [("wavelets", ConfigVal.table [])] "wavelet" = ConfigVal.bool false ∧
    (run ⟨0, 100, false, "c.f0", "e"⟩ [] [4, 6]).err = some RunError.typeError :=
  ⟨(C8_missing_key_silent [("wavelets", ConfigVal.table [])] "wavelet" (by simp)
      "c.f0" "e" [4, 6] 100 false (by decide)).1,
   (C8_missing_key_silent [("wavelets", ConfigVal.table [])] "wavelet" (by simp)
      "c.f0" "e" [4, 6] 100 false (by decide)).2.1⟩

/-! ### Branch lemmas for the synthesis half -/

theorem synthesisPhase_analysisRan (mode : ℤ) (mf : ℚ) (plot : Bool) (out : String)
    (input : List ℚ) (of : String) (f0 : Option (List ℚ))
    (sc : Option (List (List ℚ))) (ai : Option (List ℚ)) (cu : Option Bool)
    (ar : Bool) (files : List (String × Artifact)) :
    (synthesisPhase mode mf plot out input of f0 sc ai cu ar files).analysisRan = ar := by
  unfold synthesisPhase
  by_cases h : 1 ≤ mode ∨ plot = true
  · rw [if_pos h]
    rcases hs : synthScales sc input with e | s
    · simp
    · rcases hm : synthMeanE mode mf f0 with e | mn
      · simp
      · by_cases h1 : 1 ≤ mode <;> simp [h1]
  · rw [if_neg h]

theorem synthesisPhase_files_stay (mode : ℤ) (mf : ℚ) (plot : Bool) (out : String)
    (input : List ℚ) (of : String) (f0 : Option (List ℚ))
    (sc : Option (List (List ℚ))) (ai : Option (List ℚ)) (cu : Option Bool)
    (ar : Bool) (files : List (String × Artifact)) (h : ¬ 1 ≤ mode) :
    (synthesisPhase mode mf plot out input of f0 sc ai cu ar files).files = files := by
  unfold synthesisPhase
  by_cases hg : 1 ≤ mode ∨ plot = true
  · rw [if_pos hg]
    rcases hs : synthScales sc input with e | s
    · simp
    · rcases hm : synthMeanE mode mf f0 with e | mn
      · simp
      · simp [h]
  · rw [if_neg hg]

theorem synthesisPhase_recFile_none (mode : ℤ) (mf : ℚ) (plot : Bool) (out : String)
    (input : List ℚ) (of : String) (f0 : Option (List ℚ))
    (sc : Option (List (List ℚ))) (ai : Option (List ℚ)) (cu : Option Bool)
    (ar : Bool) (files : List (String × Artifact)) (h : ¬ 1 ≤ mode) :
    (synthesisPhase mode mf plot out input of f0 sc ai cu ar files).recFile = none := by
  unfold synthesisPhase
  by_cases hg : 1 ≤ mode ∨ plot = true
  · rw [if_pos hg]
    rcases hs : synthScales sc input with e | s
    · simp
    · rcases hm : synthMeanE mode mf f0 with e | mn
      · simp
      · simp [h]
  · rw [if_neg hg]

theorem synthesisPhase_recFile_isSome (mode : ℤ) (mf : ℚ) (plot : Bool) (out : String)
    (input : List ℚ) (of : String) (f0 : Option (List ℚ))
    (sc : Option (List (List ℚ))) (ai : Option (List ℚ)) (cu : Option Bool)
    (ar : Bool) (files : List (String × Artifact)) (h : 1 ≤ mode)
    (herr : (synthesisPhase mode mf plot out input of f0 sc ai cu ar files).err = none) :
    (synthesisPhase mode mf plot out input of f0 sc ai cu ar files).recFile.isSome = true := by
  unfold synthesisPhase at herr ⊢
  rw [if_pos (Or.inl h)] at herr ⊢
  rcases hs : synthScales sc input with e | s
  · rw [hs] at herr; simp at herr
  · rw [hs] at herr
    rcases hm : synthMeanE mode mf f0 with e | mn
    · rw [hm] at herr; simp at herr
    · simp [h]

theorem synthesisPhase_rec_isSome (mode : ℤ) (mf : ℚ) (plot : Bool) (out : String)
    (input : List ℚ) (of : String) (f0 : Option (List ℚ))
    (sc : Option (List (List ℚ))) (ai : Option (List ℚ)) (cu : Option Bool)
    (ar : Bool) (files : List (String × Artifact)) (hg : 1 ≤ mode ∨ plot = true)
    (herr : (synthesisPhase mode mf plot out input of f0 sc ai cu ar files).err = none) :
    (synthesisPhase mode mf plot out input of f0 sc ai cu ar files).rec?.isSome = true := by
  unfold synthesisPhase at herr ⊢
  rw [if_pos hg] at herr ⊢
  rcases hs : synthScales sc input with e | s
  · rw [hs] at herr; simp at herr
  · rw [hs] at herr
    rcases hm : synthMeanE mode mf f0 with e | mn
    · rw [hm] at herr; simp at herr
    · by_cases h1 : 1 ≤ mode <;> simp [h1]

theorem synthesisPhase_rec_none (mode : ℤ) (mf : ℚ) (plot : Bool) (out : String)
    (input : List ℚ) (of : String) (f0 : Option (List ℚ))
    (sc : Option (List (List ℚ))) (ai : Option (List ℚ)) (cu : Option Bool)
    (ar : Bool) (files : List (String × Artifact)) (hg : ¬ (1 ≤ mode ∨ plot = true)) :
    (synthesisPhase mode mf plot out input of f0 sc ai cu ar files).rec? = none := by
  unfold synthesisPhase
  rw [if_neg hg]

theorem synthesisPhase_plot_irrel (mode : ℤ) (mf : ℚ) (out : String)
    (input : List ℚ) (of : String) (f0 : Option (List ℚ))
    (sc : Option (List (List ℚ))) (ai : Option (List ℚ)) (cu : Option Bool)
    (ar : Bool) (files : List (String × Artifact)) (h : 1 ≤ mode) :
    synthesisPhase mode mf true out input of f0 sc ai cu ar files
      = synthesisPhase mode mf false out input of f0 sc ai cu ar files := by
  unfold synthesisPhase
  rw [if_pos (Or.inl h), if_pos (Or.inl h)]

theorem synthMeanE_ne_one (mode : ℤ) (m₁ m₂ : ℚ) (f0 : Option (List ℚ))
    (h : mode ≠ 1) : synthMeanE mode m₁ f0 = synthMeanE mode m₂ f0 := by
  unfold synthMeanE
  rw [if_neg h, if_neg h]

theorem synthesisPhase_mean_irrel (mode : ℤ) (m₁ m₂ : ℚ) (plot : Bool) (out : String)
    (input : List ℚ) (of : String) (f0 : Option (List ℚ))
    (sc : Option (List (List ℚ))) (ai : Option (List ℚ)) (cu : Option Bool)
    (ar : Bool) (files : List (String × Artifact)) (h : mode ≠ 1) :
    synthesisPhase mode m₁ plot out input of f0 sc ai cu ar files
      = synthesisPhase mode m₂ plot out input of f0 sc ai cu ar files := by
  unfold synthesisPhase
  rw [synthMeanE_ne_one mode m₁ m₂ f0 h]

theorem synthesisPhase_synthMean_one (mf : ℚ) (plot : Bool) (out : String)
    (input : List ℚ) (of : String) (f0 : Option (List ℚ))
    (sc : Option (List (List ℚ))) (ai : Option (List ℚ)) (cu : Option Bool)
    (ar : Bool) (files : List (String × Artifact))
    (herr : (synthesisPhase 1 mf plot out input of f0 sc ai cu ar files).err = none) :
    (synthesisPhase 1 mf plot out input of f0 sc ai cu ar files).synthMean = some mf := by
  unfold synthesisPhase at herr ⊢
  rw [if_pos (Or.inl (le_refl (1 : ℤ)))] at herr ⊢
  rcases hs : synthScales sc input with e | s
  · rw [hs] at herr; simp at herr
  · rw [show synthMeanE 1 mf f0 = Except.ok mf from rfl]
    simp

/-! ### Claim C9 -/

/-- C9: for every integer `--mode` value: (i) the analysis pass runs iff the
mode is even (`mode % 2 == 0`, line 126); (ii) a successful run persists a
reconstruction iff `mode >= 1` (line 179); (iii) every odd mode greater than
one skips analysis yet reaches the `np.mean(f0)` read of line 175 with `f0`
undefined, so the run fails with the unbound-variable error (provided the
payload itself reshapes, i.e. has size a multiple of five); (iv) the
command-line `mean_f0` influences the result only when the mode is exactly
one, and (v) in mode one the synthesis mean is exactly the command-line
value. -/
theorem C9_mode_arithmetic (mode : ℤ) (mf : ℚ) (plot : Bool) (inp out : String)
    (cfg : Cfg) (v : List ℚ) :
    ((run ⟨mode, mf, plot, inp, out⟩ cfg v).analysisRan = true ↔ mode % 2 = 0) ∧
    ((run ⟨mode, mf, plot, inp, out⟩ cfg v).err = none →
      ((run ⟨mode, mf, plot, inp, out⟩ cfg v).recFile.isSome = true ↔ 1 ≤ mode)) ∧
    (mode % 2 ≠ 0 → 1 < mode → v.length % 5 = 0 →
      (run ⟨mode, mf, plot, inp, out⟩ cfg v).err = some (RunError.unboundLocal "f0")) ∧
    (mode ≠ 1 → ∀ m₁ m₂ : ℚ,
      run ⟨mode, m₁, plot, inp, out⟩ cfg v = run ⟨mode, m₂, plot, inp, out⟩ cfg v) ∧
    (mode = 1 → (run ⟨mode, mf, plot, inp, out⟩ cfg v).err = none →
      (run ⟨mode, mf, plot, inp, out⟩ cfg v).synthMean = some mf) := by
  refine ⟨?_, ?_, ?_, ?_, ?_⟩
  · -- (i) analysis pass iff even mode
    by_cases he : mode % 2 = 0
    · simp only [run, if_pos he]
      rcases ha : (analysisPhase inp cfg v (pathJoin out (strBasename inp))).err with _ | e
      · simp [synthesisPhase_analysisRan, he]
      · simp [he]
    · simp only [run, if_neg he]
      simp [synthesisPhase_analysisRan, he]
  · -- (ii) reconstruction persisted iff mode >= 1, on successful runs
    intro herr
    by_cases he : mode % 2 = 0
    · simp only [run, if_pos he] at herr ⊢
      rcases ha : (analysisPhase inp cfg v (pathJoin out (strBasename inp))).err with _ | e
      · rw [ha] at herr
        by_cases h1 : 1 ≤ mode
        · simp [h1, synthesisPhase_recFile_isSome _ _ _ _ _ _ _ _ _ _ _ _ h1 herr]
        · simp [h1, synthesisPhase_recFile_none _ _ _ _ _ _ _ _ _ _ _ _ h1]
      · rw [ha] at herr; simp at herr
    · simp only [run, if_neg he] at herr ⊢
      by_cases h1 : 1 ≤ mode
      · simp [h1, synthesisPhase_recFile_isSome _ _ _ _ _ _ _ _ _ _ _ _ h1 herr]
      · simp [h1, synthesisPhase_recFile_none _ _ _ _ _ _ _ _ _ _ _ _ h1]
  · -- (iii) odd modes above one die on the undefined f0
    intro hodd h1 h5
    simp only [run, if_neg hodd]
    unfold synthesisPhase
    rw [if_pos (Or.inl (by omega : (1 : ℤ) ≤ mode))]
    have hs : synthScales none v = Except.ok (npT (chunk5 v)) := by
      simp [synthScales, reshape_neg1_5, h5, Except.map]
    rw [hs]
    have hm : synthMeanE mode mf none = Except.error (RunError.unboundLocal "f0") := by
      unfold synthMeanE
      rw [if_neg (by omega : ¬ mode = 1)]
    rw [hm]
  · -- (iv) mean_f0 is dead outside mode 1
    intro hne m₁ m₂
    by_cases he : mode % 2 = 0
    · simp only [run, if_pos he]
      rcases ha : (analysisPhase inp cfg v (pathJoin out (strBasename inp))).err with _ | e
      · rw [synthesisPhase_mean_irrel mode m₁ m₂ plot out v
          (pathJoin out (strBasename inp)) _ _ _ _ true _ hne]
      · rfl
    · simp only [run, if_neg he]
      rw [synthesisPhase_mean_irrel mode m₁ m₂ plot out v
        (pathJoin out (strBasename inp)) none none none none false [] hne]
  · -- (v) mode 1 synthesizes with the command-line mean
    intro h1 herr
    subst h1
    simp only [run, if_neg (by decide : ¬ ((1 : ℤ) % 2 = 0))] at herr ⊢
    exact synthesisPhase_synthMean_one mf plot out v
      (pathJoin out (strBasename inp)) none none none none false [] herr

theorem C9_mode_arithmetic_witness :
    (run ⟨3, 100, false, "in.f0", "o"⟩ [] [1, 2, 3, 4, 5]).err
      = some (RunError.unboundLocal "f0") ∧
    ((run ⟨2, 100, false, "a.f0", "o"⟩ (mkWaveletCfg 12 1 "mexh") [1, 2]).analysisRan
      = true ↔ (2 : ℤ) % 2 = 0) ∧
    ((run ⟨2, 100, false, "a.f0", "o"⟩ (mkWaveletCfg 12 1 "mexh") [1, 2]).recFile.isSome
      = true ↔ (1 : ℤ) ≤ 2) :=
  ⟨(C9_mode_arithmetic 3 100 false "in.f0" "o" [] [1, 2, 3, 4, 5]).2.2.1
      (by decide) (by decide) (by decide),
   (C9_mode_arithmetic 2 100 false "a.f0" "o" (mkWaveletCfg 12 1 "mexh") [1, 2]).1,
   (C9_mode_arithmetic 2 100 false "a.f0" "o" (mkWaveletCfg 12 1 "mexh") [1, 2]).2.1
      (by with_unfolding_all decide)⟩

/-! ### Claim C10 -/

/-- C10: for every mode, the plot flag changes no persisted artifact — the
files written (names and contents, in order) are identical with and without
`--plot` — even though in analysis-only mode (mode 0) the flag additionally
triggers an in-memory reconstruction (line 169) that is never written to
disk. -/
theorem C10_plot_writes_nothing (mode : ℤ) (mf : ℚ) (inp out : String)
    (cfg : Cfg) (v : List ℚ) :
    (run ⟨mode, mf, true, inp, out⟩ cfg v).files
      = (run ⟨mode, mf, false, inp, out⟩ cfg v).files ∧
    (mode = 0 → (run ⟨mode, mf, true, inp, out⟩ cfg v).err = none →
      (run ⟨mode, mf, true, inp, out⟩ cfg v).rec?.isSome = true ∧
      (run ⟨mode, mf, false, inp, out⟩ cfg v).rec? = none ∧
      (run ⟨mode, mf, true, inp, out⟩ cfg v).recFile = none) := by
  constructor
  · -- persisted files are plot-independent
    by_cases he : mode % 2 = 0
    · simp only [run, if_pos he]
      rcases ha : (analysisPhase inp cfg v (pathJoin out (strBasename inp))).err with _ | e
      · by_cases h1 : 1 ≤ mode
        · rw [synthesisPhase_plot_irrel mode mf out v
            (pathJoin out (strBasename inp)) _ _ _ _ true _ h1]
        · rw [synthesisPhase_files_stay mode mf true out v
              (pathJoin out (strBasename inp)) _ _ _ _ true _ h1,
            synthesisPhase_files_stay mode mf false out v
              (pathJoin out (strBasename inp)) _ _ _ _ true _ h1]
      · rfl
    · simp only [run, if_neg he]
      by_cases h1 : 1 ≤ mode
      · rw [synthesisPhase_plot_irrel mode mf out v
          (pathJoin out (strBasename inp)) none none none none false [] h1]
      · rw [synthesisPhase_files_stay mode mf true out v
            (pathJoin out (strBasename inp)) none none none none false [] h1,
          synthesisPhase_files_stay mode mf false out v
            (pathJoin out (strBasename inp)) none none none none false [] h1]
  · -- in mode 0 the plot flag triggers an in-memory, never-persisted rec
    intro h0 herr
    subst h0
    simp only [run, if_pos (by decide : ((0 : ℤ) % 2 = 0))] at herr ⊢
    rcases ha : (analysisPhase inp cfg v (pathJoin out (strBasename inp))).err with _ | e
    · rw [ha] at herr
      refine ⟨synthesisPhase_rec_isSome _ _ _ _ _ _ _ _ _ _ _ _ (Or.inr rfl) herr, ?_, ?_⟩
      · exact synthesisPhase_rec_none _ _ _ _ _ _ _ _ _ _ _ _ (by decide)
      · exact synthesisPhase_recFile_none _ _ _ _ _ _ _ _ _ _ _ _ (by decide)
    · rw [ha] at herr; simp at herr

theorem C10_plot_writes_nothing_witness :
    (run ⟨0, 100, true, "a.f0", "o"⟩ (mkWaveletCfg 12 1 "mexh") [1, 2]).files
      = (run ⟨0, 100, false, "a.f0", "o"⟩ (mkWaveletCfg 12 1 "mexh") [1, 2]).files ∧
    (run ⟨0, 100, true, "a.f0", "o"⟩ (mkWaveletCfg 12 1 "mexh") [1, 2]).rec?.isSome
      = true ∧
    (run ⟨0, 100, false, "a.f0", "o"⟩ (mkWaveletCfg 12 1 "mexh") [1, 2]).rec? = none :=
  ⟨(C10_plot_writes_nothing 0 100 "a.f0" "o" (mkWaveletCfg 12 1 "mexh") [1, 2]).1,
   ((C10_plot_writes_nothing 0 100 "a.f0" "o" (mkWaveletCfg 12 1 "mexh") [1, 2]).2
      rfl (by with_unfolding_all decide)).1,
   ((C10_plot_writes_nothing 0 100 "a.f0" "o" (mkWaveletCfg 12 1 "mexh") [1, 2]).2
      rfl (by with_unfolding_all decide)).2.1⟩

end CwtAS
